import Mathlib

/-!
Verification of the locust load-test drivers in this repository
(`src/microservices-resilience/locust/locustfile.py` and
`src/midterm/locust/locustfile-scenarios.py`).

The embedding models:
  * the Python values a decoded JSON body can take (`JsonVal`), with
    Python truthiness and Python string conversion (used by f-strings);
  * an HTTP response as seen by the code: its status code and the result
    of calling `response.json()` (a parsed value, or the exception text
    when parsing raises);
  * the test-assertion outcome `response.success()` / `response.failure(msg)`
    as a `Mark`;
  * the bodies of `OrderServiceUser.create_order`,
    `ResilienceTestUser.create_valid_order`, `OrderServiceUser.get_order`,
    `ResilienceTestUser.get_order_details`, the four `FailFastUser` tasks,
    and the `tick` methods of `StepLoadShape` and `SpikeLoadShape`.

Randomness (`random.randint`, `random.sample`, `random.choice`) is modelled
by universally quantifying over the values these stdlib calls can return,
under their documented contracts.
-/

/-- A decoded JSON value, as Python's `json` module produces it: `None`,
booleans, numbers, strings, lists and dicts.  (Numbers are modelled as
integers; no claim depends on fractional response fields.)  An `obj`'s
field list models the decoded dict's items, so its keys are unique. -/
inductive JsonVal where
  | null
  | b (v : Bool)
  | n (v : Int)
  | s (v : String)
  | arr (xs : List JsonVal)
  | obj (fields : List (String × JsonVal))

/-- Python truthiness (`if order_id:`): `None`, `False`, `0`, `""`, `[]`
and the empty dict are falsy; everything else is truthy. -/
def truthy : JsonVal → Bool
  | .null => false
  | .b v => v
  | .n v => v != 0
  | .s v => v != ""
  | .arr xs => !xs.isEmpty
  | .obj fs => !fs.isEmpty

mutual

/-- Python `repr` of a decoded JSON value. -/
def pyRepr : JsonVal → String
  | .null => "None"
  | .b true => "True"
  | .b false => "False"
  | .n v => toString v
  | .s v => "'" ++ v ++ "'"
  | .arr xs => "[" ++ pyReprSeq xs ++ "]"
  | .obj fs => "\x7b" ++ pyReprFields fs ++ "\x7d"

/-- Comma-separated `repr`s of the elements of a Python list. -/
def pyReprSeq : List JsonVal → String
  | [] => ""
  | [x] => pyRepr x
  | x :: y :: xs => pyRepr x ++ ", " ++ pyReprSeq (y :: xs)

/-- Comma-separated `repr`s of the items of a Python dict. -/
def pyReprFields : List (String × JsonVal) → String
  | [] => ""
  | [(k, v)] => "'" ++ k ++ "': " ++ pyRepr v
  | (k, v) :: f :: fs => "'" ++ k ++ "': " ++ pyRepr v ++ ", " ++ pyReprFields (f :: fs)

end

/-- Python `str` of a decoded JSON value, as an f-string renders it:
a string renders as itself, every other value as its `repr`. -/
def pyStr : JsonVal → String
  | .s v => v
  | v => pyRepr v

/-- The Python name of a decoded JSON value's type (what an
`AttributeError` message mentions). -/
def pyTypeName : JsonVal → String
  | .null => "NoneType"
  | .b _ => "bool"
  | .n _ => "int"
  | .s _ => "str"
  | .arr _ => "list"
  | .obj _ => "dict"

/-- Python `dict.get(key)`: the value stored under `key`, or `None`
(here `Option.none`) when the key is absent.  Never raises. -/
def dictGet (fields : List (String × JsonVal)) (key : String) : Option JsonVal :=
  fields.lookup key

/-- An HTTP response as observed by the locust code: the status code and
the outcome of `response.json()` — `Except.ok` with the decoded value, or
`Except.error` with the exception's text when decoding raises. -/
structure Response where
  status_code : Nat
  json_result : Except String JsonVal

/-- The test-assertion outcome recorded for a request:
`response.success()` or `response.failure(msg)`. -/
inductive Mark where
  | success
  | failure (msg : String)
deriving DecidableEq

/-- `OrderServiceUser.create_order` (locustfile.py, lines 28-41): the
response handler.  Given the current cached `order_ids` list and the
response, returns the updated list and the recorded mark.
On a 200 response it parses the body (`response.json()` raising, or
`.get` raising `AttributeError` on a non-dict body, lands in the bare
`except` with the fixed message); a truthy `order_id` is appended only
while the list holds fewer than 100 entries; any non-200 status is a
failure. -/
def create_order (order_ids : List JsonVal) (resp : Response) :
    List JsonVal × Mark :=
  if resp.status_code = 200 then
    match resp.json_result with
    | .error _ => (order_ids, .failure "Failed to parse response")
    | .ok order_data =>
      match order_data with
      | .obj fields =>
        let order_id := (dictGet fields "order_id").getD .null
        let order_ids' :=
          if truthy order_id then
            if order_ids.length < 100 then order_ids ++ [order_id] else order_ids
          else order_ids
        (order_ids', .success)
      | _ => (order_ids, .failure "Failed to parse response")
  else
    (order_ids, .failure ("Got status " ++ toString resp.status_code))

/-- `ResilienceTestUser.create_valid_order` (locustfile-scenarios.py,
lines 57-71): the response handler.  Like `create_order`, but the
`except` clause's message carries the exception text, and any status of
500 or above is accepted (`response.success()`) as expected chaos. -/
def create_valid_order (order_ids : List JsonVal) (resp : Response) :
    List JsonVal × Mark :=
  if resp.status_code = 200 then
    match resp.json_result with
    | .error e => (order_ids, .failure ("Failed to parse response: " ++ e))
    | .ok order_data =>
      match order_data with
      | .obj fields =>
        let order_id := (dictGet fields "order_id").getD .null
        let order_ids' :=
          if truthy order_id ∧ order_ids.length < 100 then order_ids ++ [order_id]
          else order_ids
        (order_ids', .success)
      | other =>
        (order_ids, .failure ("Failed to parse response: '" ++ pyTypeName other
          ++ "' object has no attribute 'get'"))
  else if 500 ≤ resp.status_code then
    (order_ids, .success)
  else
    (order_ids, .failure ("Got status " ++ toString resp.status_code))

/-- `OrderServiceUser.get_order` (locustfile.py, lines 43-51): when the
cache is non-empty, `random.choice` picks an entry — modelled by the
index `i` it returns — and the request URL interpolates it; otherwise the
fixed dummy URL is requested.  Returns the URL and the (unchanged) cache. -/
def get_order (order_ids : List JsonVal) (i : Nat) : String × List JsonVal :=
  match order_ids with
  | [] => ("/order/dummy-order-id", order_ids)
  | x :: xs => ("/order/" ++ pyStr ((x :: xs).getD i x), order_ids)

/-- `ResilienceTestUser.get_order_details` (locustfile-scenarios.py,
lines 73-80): identical logic to `get_order`. -/
def get_order_details (order_ids : List JsonVal) (i : Nat) : String × List JsonVal :=
  match order_ids with
  | [] => ("/order/dummy-order-id", order_ids)
  | x :: xs => ("/order/" ++ pyStr ((x :: xs).getD i x), order_ids)

/-- A line item of an order payload, as the literals in both locustfiles
build it: an `item_id` string, an integer `quantity`, and a `price`
(a decimal literal, modelled exactly as a rational). -/
structure Item where
  item_id : String
  quantity : Int
  price : ℚ
deriving DecidableEq

/-- The fixed five-item catalogue, identical in `OrderServiceUser.items`
(locustfile.py, lines 12-18) and `ResilienceTestUser.items`
(locustfile-scenarios.py, lines 41-47). -/
def items : List Item :=
  [⟨"item-1", 1, 999.99⟩,
   ⟨"item-2", 2, 29.99⟩,
   ⟨"item-3", 1, 79.99⟩,
   ⟨"item-4", 1, 299.99⟩,
   ⟨"item-5", 3, 149.99⟩]

/-- An order-creation request body: `{"items": selected_items}`. -/
structure Payload where
  items : List Item
deriving DecidableEq

/-- The external service's validity rule for one line item (spec §3):
non-empty identifier, positive quantity, positive price. -/
def validItem (it : Item) : Prop :=
  it.item_id ≠ "" ∧ 0 < it.quantity ∧ 0 < it.price

instance : DecidablePred validItem := fun it => by
  unfold validItem; infer_instance

/-- The external service's validity rule for a payload (spec §3):
a non-empty item list whose items are each valid. -/
def validPayload (p : Payload) : Prop :=
  p.items ≠ [] ∧ ∀ it ∈ p.items, validItem it

/-- The documented contract of `random.sample(pop, k)`: a list of `k`
elements chosen from `k` distinct positions of `pop`, in random order —
i.e. a permutation of some length-`k` sublist of `pop`. -/
def IsSample (sel pop : List Item) (k : Nat) : Prop :=
  sel.length = k ∧ ∃ sub, sub.Sublist pop ∧ sel.Perm sub

/-- `OrderServiceUser.create_order` (locustfile.py, lines 22-26), payload
construction: `num_items = random.randint(1, 3)` (modelled by `k`) and
`selected_items = random.sample(self.items, num_items)` (modelled by
`sel`); the payload is `{"items": selected_items}`. -/
def create_order_payload (sel : List Item) : Payload := ⟨sel⟩

/-- `ResilienceTestUser.create_valid_order` (locustfile-scenarios.py,
lines 49-55), payload construction: with the default `num_items=None`
(every caller in the file uses the default), `num_items` is drawn by
`random.randint(1, 3)` and the sample size is
`min(num_items, len(self.items))`. -/
def create_valid_order_sample_size (num_items : Nat) : Nat :=
  min num_items items.length

/-- The payload `create_valid_order` sends for the sample it drew. -/
def create_valid_order_payload (sel : List Item) : Payload := ⟨sel⟩

/-- `FailFastUser.empty_order` (locustfile-scenarios.py, lines 125-134):
its fixed payload, `{"items": []}`. -/
def empty_order_payload : Payload := ⟨[]⟩

/-- `FailFastUser.invalid_quantity` (lines 136-149): its fixed payload. -/
def invalid_quantity_payload : Payload := ⟨[⟨"item-1", 0, 999.99⟩]⟩

/-- `FailFastUser.invalid_price` (lines 151-164): its fixed payload. -/
def invalid_price_payload : Payload := ⟨[⟨"item-1", 1, -10⟩]⟩

/-- `FailFastUser.missing_item_id` (lines 166-179): its fixed payload. -/
def missing_item_id_payload : Payload := ⟨[⟨"", 1, 99.99⟩]⟩

/-- `FailFastUser.empty_order`, full task: posts its payload and records
`response.success()` exactly on status 400,
`response.failure(f"Expected 400, got {status}")` otherwise. -/
def empty_order (resp : Response) : Payload × Mark :=
  (empty_order_payload,
   if resp.status_code = 400 then .success
   else .failure ("Expected 400, got " ++ toString resp.status_code))

/-- `FailFastUser.invalid_quantity`, full task: same assertion. -/
def invalid_quantity (resp : Response) : Payload × Mark :=
  (invalid_quantity_payload,
   if resp.status_code = 400 then .success
   else .failure ("Expected 400, got " ++ toString resp.status_code))

/-- `FailFastUser.invalid_price`, full task: same assertion. -/
def invalid_price (resp : Response) : Payload × Mark :=
  (invalid_price_payload,
   if resp.status_code = 400 then .success
   else .failure ("Expected 400, got " ++ toString resp.status_code))

/-- `FailFastUser.missing_item_id`, full task: same assertion. -/
def missing_item_id (resp : Response) : Payload × Mark :=
  (missing_item_id_payload,
   if resp.status_code = 400 then .success
   else .failure ("Expected 400, got " ++ toString resp.status_code))

/-- Python attribute semantics of the cached list: `order_ids = []` in
the class body of `OrderServiceUser` (resp. `ResilienceTestUser`)
creates one list object stored on the class.  No method in either file
ever assigns `self.order_ids`, so attribute lookup on every instance
resolves to that single class-level object, which `.append` mutates in
place.  This structure is the state of one user class together with all
its instances: the one class-level list is the only `order_ids` storage. -/
structure UserPopulation where
  classOrderIds : List JsonVal

/-- The `order_ids` list that instance `inst` observes via
`self.order_ids`: instance dicts never hold the attribute, so lookup
falls through to the class-level list for every instance. -/
def observedOrderIds (p : UserPopulation) (_inst : Nat) : List JsonVal :=
  p.classOrderIds

/-- Instance `inst` runs the `create_order` response handler on response
`resp`: it reads and mutates the list its own `self.order_ids` resolves
to. -/
def create_order_on (p : UserPopulation) (inst : Nat) (resp : Response) :
    UserPopulation × Mark :=
  let r := create_order (observedOrderIds p inst) resp
  (⟨r.1⟩, r.2)

/-- One cache-affecting operation of a trace: a run of `create_order`
or of `create_valid_order` against the response the server produced. -/
inductive Op where
  | createOrder (resp : Response)
  | createValidOrder (resp : Response)

/-- The list update a single operation performs. -/
def stepOp (order_ids : List JsonVal) (op : Op) : List JsonVal :=
  match op with
  | .createOrder resp => (create_order order_ids resp).1
  | .createValidOrder resp => (create_valid_order order_ids resp).1

/-- The response an operation handled. -/
def Op.resp : Op → Response
  | .createOrder r => r
  | .createValidOrder r => r

/-- The cached list after a sequence of create operations. -/
def runOps (order_ids : List JsonVal) (ops : List Op) : List JsonVal :=
  ops.foldl stepOp order_ids

/-- `x` is a value that response `resp` makes eligible for the cache:
the status is 200, the body decodes to a dict whose `order_id` key holds
`x`, and `x` is truthy (so neither `None`, `""`, nor any other falsy
value). -/
def Justified (resp : Response) (x : JsonVal) : Prop :=
  resp.status_code = 200 ∧
  ∃ fields, resp.json_result = Except.ok (JsonVal.obj fields) ∧
    dictGet fields "order_id" = some x ∧ truthy x

/-- One stage of a `LoadTestShape` table: run until `duration` seconds
with `users` users spawned at `spawn_rate` per second. -/
structure LoadStage where
  duration : ℚ
  users : Nat
  spawn_rate : Nat

/-- `StepLoadShape.stages` (locustfile-scenarios.py, lines 301-307). -/
def step_stages : List LoadStage :=
  [⟨60, 10, 2⟩, ⟨120, 25, 3⟩, ⟨180, 50, 5⟩, ⟨240, 75, 5⟩, ⟨300, 100, 5⟩]

/-- `SpikeLoadShape.stages` (locustfile-scenarios.py, lines 330-336). -/
def spike_stages : List LoadStage :=
  [⟨30, 10, 2⟩, ⟨60, 100, 20⟩, ⟨90, 10, 10⟩, ⟨120, 100, 20⟩, ⟨150, 10, 10⟩]

/-- The `tick` body shared by `StepLoadShape` and `SpikeLoadShape`:
scan the stage table in order, return `(users, spawn_rate)` of the first
stage whose `duration` exceeds the run time, and `None` when no stage
matches.  `run_time` (a float number of seconds) is modelled as `t : ℚ`. -/
def tickLoop (stages : List LoadStage) (t : ℚ) : Option (Nat × Nat) :=
  match stages with
  | [] => none
  | stage :: rest =>
    if t < stage.duration then some (stage.users, stage.spawn_rate)
    else tickLoop rest t

/-- `StepLoadShape.tick` (locustfile-scenarios.py, lines 309-316). -/
def step_tick (t : ℚ) : Option (Nat × Nat) := tickLoop step_stages t

/-- `SpikeLoadShape.tick` (locustfile-scenarios.py, lines 338-345). -/
def spike_tick (t : ℚ) : Option (Nat × Nat) := tickLoop spike_stages t

/-! ## Helper lemmas about the create handlers -/

lemma create_order_fst_cases (ids : List JsonVal) (r : Response) :
    (create_order ids r).1 = ids ∨
    ∃ x, Justified r x ∧ ids.length < 100 ∧ (create_order ids r).1 = ids ++ [x] := by
  obtain ⟨sc, jr⟩ := r
  by_cases h200 : sc = 200
  · subst h200
    rcases jr with e | j
    · left; rfl
    · rcases j with _ | b | n | s | xs | fields
      · left; rfl
      · left; rfl
      · left; rfl
      · left; rfl
      · left; rfl
      · rcases hg : dictGet fields "order_id" with _ | v
        · left
          simp [create_order, hg, truthy]
        · by_cases ht : truthy v
          · by_cases hlen : ids.length < 100
            · right
              refine ⟨v, ⟨rfl, fields, rfl, hg, ht⟩, hlen, ?_⟩
              simp [create_order, hg, ht, hlen]
            · left
              simp [create_order, hg, ht, hlen]
          · left
            simp [create_order, hg, ht]
  · left
    simp [create_order, h200]

lemma create_valid_order_fst_cases (ids : List JsonVal) (r : Response) :
    (create_valid_order ids r).1 = ids ∨
    ∃ x, Justified r x ∧ ids.length < 100 ∧ (create_valid_order ids r).1 = ids ++ [x] := by
  obtain ⟨sc, jr⟩ := r
  by_cases h200 : sc = 200
  · subst h200
    rcases jr with e | j
    · left; rfl
    · rcases j with _ | b | n | s | xs | fields
      · left; rfl
      · left; rfl
      · left; rfl
      · left; rfl
      · left; rfl
      · rcases hg : dictGet fields "order_id" with _ | v
        · left
          simp [create_valid_order, hg, truthy]
        · by_cases ht : truthy v
          · by_cases hlen : ids.length < 100
            · right
              refine ⟨v, ⟨rfl, fields, rfl, hg, ht⟩, hlen, ?_⟩
              simp [create_valid_order, hg, ht, hlen]
            · left
              simp [create_valid_order, hg, ht, hlen]
          · left
            simp [create_valid_order, hg, ht]
  · left
    by_cases h5 : 500 ≤ sc
    · simp [create_valid_order, h200, h5]
    · simp [create_valid_order, h200, h5]

lemma stepOp_fst_cases (ids : List JsonVal) (op : Op) :
    stepOp ids op = ids ∨
    ∃ x, Justified op.resp x ∧ ids.length < 100 ∧ stepOp ids op = ids ++ [x] := by
  cases op with
  | createOrder r => exact create_order_fst_cases ids r
  | createValidOrder r => exact create_valid_order_fst_cases ids r

lemma stepOp_length_le (ids : List JsonVal) (op : Op) (h : ids.length ≤ 100) :
    (stepOp ids op).length ≤ 100 := by
  rcases stepOp_fst_cases ids op with hc | ⟨x, _, hlen, hc⟩
  · rw [hc]; exact h
  · rw [hc]; simp; omega

lemma stepOp_mem (ids : List JsonVal) (op : Op) (x : JsonVal)
    (hx : x ∈ stepOp ids op) : x ∈ ids ∨ Justified op.resp x := by
  rcases stepOp_fst_cases ids op with hc | ⟨y, hy, _, hc⟩
  · rw [hc] at hx; exact Or.inl hx
  · rw [hc] at hx
    rcases List.mem_append.mp hx with h | h
    · exact Or.inl h
    · rcases List.mem_singleton.mp h with rfl
      exact Or.inr hy

lemma runOps_length_le (ids : List JsonVal) (ops : List Op) (h : ids.length ≤ 100) :
    (runOps ids ops).length ≤ 100 := by
  induction ops generalizing ids with
  | nil => exact h
  | cons op ops ih => exact ih (stepOp ids op) (stepOp_length_le ids op h)

lemma runOps_mem (ids : List JsonVal) (ops : List Op) (x : JsonVal)
    (hx : x ∈ runOps ids ops) : x ∈ ids ∨ ∃ op ∈ ops, Justified op.resp x := by
  induction ops generalizing ids with
  | nil => exact Or.inl hx
  | cons op ops ih =>
    rcases ih (stepOp ids op) hx with h | ⟨op', hop', hj⟩
    · rcases stepOp_mem ids op x h with h' | h'
      · exact Or.inl h'
      · exact Or.inr ⟨op, List.mem_cons_self op ops, h'⟩
    · exact Or.inr ⟨op', List.mem_cons_of_mem op hop', hj⟩

/-! ## Helper lemmas about the load shapes -/

lemma tickLoop_eq_find (stages : List LoadStage) (t : ℚ) :
    tickLoop stages t =
      (stages.find? fun s => decide (t < s.duration)).map fun s => (s.users, s.spawn_rate) := by
  induction stages with
  | nil => rfl
  | cons stage rest ih =>
    by_cases h : t < stage.duration
    · simp [tickLoop, List.find?_cons, h]
    · simp [tickLoop, List.find?_cons, h, ih]

lemma step_tick_eval (t : ℚ) :
    step_tick t =
      if t < 60 then some (10, 2) else if t < 120 then some (25, 3)
      else if t < 180 then some (50, 5) else if t < 240 then some (75, 5)
      else if t < 300 then some (100, 5) else none := rfl

lemma spike_tick_eval (t : ℚ) :
    spike_tick t =
      if t < 30 then some (10, 2) else if t < 60 then some (100, 20)
      else if t < 90 then some (10, 10) else if t < 120 then some (100, 20)
      else if t < 150 then some (10, 10) else none := rfl

/-- The user count the step shape commands at time `t` (the first
component `step_tick` returns while `t < 300`). -/
def step_users (t : ℚ) : Nat :=
  if t < 60 then 10 else if t < 120 then 25 else if t < 180 then 50
  else if t < 240 then 75 else 100

lemma step_tick_users (t : ℚ) (h : t < 300) :
    ∃ sr, step_tick t = some (step_users t, sr) := by
  rw [step_tick_eval]
  unfold step_users
  split_ifs <;> exact ⟨_, rfl⟩

lemma step_users_mono (t1 t2 : ℚ) (h : t1 ≤ t2) : step_users t1 ≤ step_users t2 := by
  unfold step_users
  split_ifs <;> first | omega | linarith

lemma items_valid : ∀ it ∈ items, validItem it := by
  intro it h
  fin_cases h <;> exact ⟨by decide, by decide, by norm_num⟩

/-! ## Claim theorems -/

/-- C1, counterexample: the claim that the cached order-identifier list is
local to a single simulated-user instance fails on the code.  Concrete
input: instances 0 and 1 (distinct) of the user class, empty cache;
instance 0 runs `create_order` on a 200 response whose body is
`{"order_id": "order-1"}`; the list instance 1 observes is no longer the
one it observed before, because `order_ids = []` is a class attribute that
every instance resolves to and mutates in place. -/
theorem order_ids_shared_counterexample :
    (0 : Nat) ≠ 1 ∧
    ¬ (observedOrderIds (create_order_on ⟨[]⟩ 0
          ⟨200, Except.ok (JsonVal.obj [("order_id", JsonVal.s "order-1")])⟩).1 1
        = observedOrderIds ⟨[]⟩ 1) := by
  refine ⟨by decide, fun h => ?_⟩
  have hlen := congrArg List.length h
  simp [observedOrderIds, create_order_on, create_order, dictGet, truthy] at hlen

/-- C1, amended: the cached order-identifier list is class-level state
shared by all instances of the simulated-user class: every two instances
observe the same list, and after any instance's `create_order` handles a
response, every instance (the other one included) observes the updated
list that operation produced. -/
theorem order_ids_class_level_shared (p : UserPopulation) (i j : Nat) (r : Response) :
    observedOrderIds p i = observedOrderIds p j ∧
    observedOrderIds (create_order_on p i r).1 j
      = (create_order (observedOrderIds p i) r).1 :=
  ⟨rfl, rfl⟩

/-- C2: for every sequence of `create_order` / `create_valid_order`
operations starting from an `order_ids` cache of at most 100 entries, the
cache never exceeds 100 entries (an identifier is appended only while the
length is strictly below 100). -/
theorem order_ids_bounded (ids : List JsonVal) (ops : List Op)
    (h : ids.length ≤ 100) : (runOps ids ops).length ≤ 100 :=
  runOps_length_le ids ops h

/-- C2, witness: the bound evaluated on a concrete one-operation trace. -/
theorem order_ids_bounded_witness :
    ([] : List JsonVal).length ≤ 100 ∧
    (runOps []
      [Op.createOrder ⟨200, Except.ok (JsonVal.obj [("order_id", JsonVal.s "o-1")])⟩]).length
        ≤ 100 :=
  ⟨by decide,
   order_ids_bounded []
     [Op.createOrder ⟨200, Except.ok (JsonVal.obj [("order_id", JsonVal.s "o-1")])⟩]
     (by decide)⟩

/-- C3, counterexample: the claim marks a 200 response a success whenever
the body parses as JSON, but the code marks a failure when the parsed
JSON is not a dict (`order_data.get` raises `AttributeError`, landing in
the `except` clause).  Concrete input: status 200, body the JSON array
`[]`, which parses (`json_result.isOk`), yet the recorded mark is not a
success. -/
theorem create_valid_order_json_array_cex :
    (create_valid_order [] ⟨200, Except.ok (JsonVal.arr [])⟩).2 ≠ Mark.success ∧
    (⟨200, Except.ok (JsonVal.arr [])⟩ : Response).status_code = 200 ∧
    (⟨200, Except.ok (JsonVal.arr [])⟩ : Response).json_result.isOk = true :=
  ⟨fun h => Mark.noConfusion h, rfl, rfl⟩

/-- C3, amended: in `ResilienceTestUser.create_valid_order`, a response
to POST /order/create is marked a test success if and only if its status
code is 500 or greater, or its status code is 200 and the response body
parses as a JSON object (a dict); every other outcome — any other status
code below 500, a body that fails to parse, or a 200 body parsing to a
non-dict JSON value — is marked a test failure. -/
theorem create_valid_order_success_iff (ids : List JsonVal) (r : Response) :
    (create_valid_order ids r).2 = Mark.success ↔
      500 ≤ r.status_code ∨
      (r.status_code = 200 ∧ ∃ fields, r.json_result = Except.ok (JsonVal.obj fields)) := by
  obtain ⟨sc, jr⟩ := r
  by_cases h200 : sc = 200
  · subst h200
    rcases jr with e | j
    · simp [create_valid_order]
    · rcases j with _ | b | n | s | xs | fields
      · simp [create_valid_order]
      · simp [create_valid_order]
      · simp [create_valid_order]
      · simp [create_valid_order]
      · simp [create_valid_order]
      · constructor
        · intro _
          exact Or.inr ⟨rfl, fields, rfl⟩
        · intro _
          rfl
  · by_cases h5 : 500 ≤ sc
    · constructor
      · intro _
        exact Or.inl h5
      · intro _
        simp [create_valid_order, h200, h5]
    · constructor
      · intro h
        simp [create_valid_order, h200, h5] at h
      · intro h
        rcases h with h | ⟨h, _⟩
        · exact absurd h h5
        · exact absurd h h200

/-- C5: when parsing the body of a 200 response raises, both handlers
catch the exception and record a single failure mark, and the cached
`order_ids` list is returned unchanged. -/
theorem parse_exception_single_failure (ids : List JsonVal) (e : String) :
    create_order ids ⟨200, Except.error e⟩
      = (ids, Mark.failure "Failed to parse response") ∧
    create_valid_order ids ⟨200, Except.error e⟩
      = (ids, Mark.failure ("Failed to parse response: " ++ e)) :=
  ⟨rfl, rfl⟩

/-- C4: every invalid-order task of `FailFastUser` (empty items list,
zero quantity, negative price, empty item_id) marks the response a test
success if and only if the status code is 400, and records the
`Expected 400` failure for any other status code.  (Each task's fixed
payload indeed violates the corresponding validity rule: see the payload
definitions.) -/
theorem fail_fast_success_iff_400 (r : Response) :
    ((empty_order r).2 = Mark.success ↔ r.status_code = 400) ∧
    ((invalid_quantity r).2 = Mark.success ↔ r.status_code = 400) ∧
    ((invalid_price r).2 = Mark.success ↔ r.status_code = 400) ∧
    ((missing_item_id r).2 = Mark.success ↔ r.status_code = 400) ∧
    (r.status_code ≠ 400 →
      (empty_order r).2 = Mark.failure ("Expected 400, got " ++ toString r.status_code) ∧
      (invalid_quantity r).2 = Mark.failure ("Expected 400, got " ++ toString r.status_code) ∧
      (invalid_price r).2 = Mark.failure ("Expected 400, got " ++ toString r.status_code) ∧
      (missing_item_id r).2 = Mark.failure ("Expected 400, got " ++ toString r.status_code)) := by
  by_cases h : r.status_code = 400 <;>
    simp [empty_order, invalid_quantity, invalid_price, missing_item_id, h]

/-- C4, witness: the fail-fast assertion evaluated at a concrete 500
response. -/
theorem fail_fast_success_iff_400_witness :
    (⟨500, Except.error ""⟩ : Response).status_code ≠ 400 ∧
    (empty_order ⟨500, Except.error ""⟩).2
      = Mark.failure ("Expected 400, got " ++ toString (500 : Nat)) :=
  ⟨by decide,
   ((fail_fast_success_iff_400 ⟨500, Except.error ""⟩).2.2.2.2 (by decide)).1⟩

/-- C6: under the contracts of `random.randint(1, 3)` (the drawn `k` is
between 1 and 3) and `random.sample` (the selection is a permutation of a
length-`k` sublist of the catalogue), every payload sent by
`create_order` / `create_valid_order` has 1 to 3 distinct items from the
five-item catalogue, and satisfies the external service's validity rules
(non-empty list, non-empty item_id, positive quantity, positive price). -/
theorem create_payloads_valid (k : Nat) (sel : List Item)
    (h1 : 1 ≤ k) (h3 : k ≤ 3) (hs : IsSample sel items k) :
    create_valid_order_sample_size k = k ∧
    create_order_payload sel = create_valid_order_payload sel ∧
    (create_order_payload sel).items.length = k ∧
    (create_order_payload sel).items.Nodup ∧
    (∀ it ∈ (create_order_payload sel).items, it ∈ items) ∧
    validPayload (create_order_payload sel) := by
  obtain ⟨hlen, sub, hsub, hperm⟩ := hs
  have hsubset : ∀ it ∈ sel, it ∈ items := fun it hit =>
    hsub.subset (hperm.subset hit)
  refine ⟨?_, rfl, hlen, ?_, hsubset, ?_, ?_⟩
  · show min k items.length = k
    simp [items]
    omega
  · exact hperm.nodup_iff.mpr ((by decide : items.Nodup).sublist hsub)
  · intro hnil
    have hsel : sel = [] := hnil
    subst hsel
    simp at hlen
    omega
  · intro it hit
    exact items_valid it (hsubset it hit)

/-- C6, witness: the payload built from the concrete draw `k = 1`,
selection `[items[0]]`. -/
theorem create_payloads_valid_witness :
    1 ≤ 1 ∧ (1 : Nat) ≤ 3 ∧ IsSample [⟨"item-1", 1, 999.99⟩] items 1 ∧
    validPayload (create_order_payload [⟨"item-1", 1, 999.99⟩]) := by
  have hs : IsSample [(⟨"item-1", 1, 999.99⟩ : Item)] items 1 :=
    ⟨rfl, [⟨"item-1", 1, 999.99⟩], List.Sublist.cons₂ _ (List.nil_sublist _),
     List.Perm.refl _⟩
  exact ⟨le_refl 1, by decide, hs,
    (create_payloads_valid 1 _ (le_refl 1) (by decide) hs).2.2.2.2.2⟩

/-- C7: every entry of the cached `order_ids` list produced by a trace of
create operations is either an initial entry or the truthy value of the
`order_id` field of the decoded dict body of some 200 response of the
trace — so nothing is added on a non-200 response, a parse failure, or a
missing or falsy (e.g. empty) `order_id`. -/
theorem order_ids_entries_justified (ids : List JsonVal) (ops : List Op) (x : JsonVal)
    (hx : x ∈ runOps ids ops) :
    x ∈ ids ∨ ∃ op ∈ ops, Justified (Op.resp op) x :=
  runOps_mem ids ops x hx

/-- C7, witness: the invariant evaluated on a concrete one-operation
trace appending "order-1". -/
theorem order_ids_entries_justified_witness :
    JsonVal.s "order-1" ∈
      runOps []
        [Op.createOrder ⟨200, Except.ok (JsonVal.obj [("order_id", JsonVal.s "order-1")])⟩] ∧
    (JsonVal.s "order-1" ∈ ([] : List JsonVal) ∨
      ∃ op ∈ [Op.createOrder
          ⟨200, Except.ok (JsonVal.obj [("order_id", JsonVal.s "order-1")])⟩],
        Justified (Op.resp op) (JsonVal.s "order-1")) := by
  have hx : JsonVal.s "order-1" ∈
      runOps []
        [Op.createOrder ⟨200, Except.ok (JsonVal.obj [("order_id", JsonVal.s "order-1")])⟩] :=
    List.Mem.head _
  exact ⟨hx, order_ids_entries_justified _ _ _ hx⟩

/-- C8: `get_order` / `get_order_details` leave the cache unchanged, use
the fixed identifier "dummy-order-id" when the cache is empty, and
otherwise request an identifier drawn from the cached list. -/
theorem get_order_url_spec (ids : List JsonVal) (i : Nat) :
    (get_order ids i).2 = ids ∧
    get_order_details ids i = get_order ids i ∧
    (ids = [] → (get_order ids i).1 = "/order/dummy-order-id") ∧
    (ids ≠ [] → ∃ v ∈ ids, (get_order ids i).1 = "/order/" ++ pyStr v) := by
  cases ids with
  | nil => exact ⟨rfl, rfl, fun _ => rfl, fun h => absurd rfl h⟩
  | cons x xs =>
    refine ⟨rfl, rfl, fun h => absurd h (List.cons_ne_nil x xs), fun _ => ?_⟩
    refine ⟨(x :: xs).getD i x, ?_, rfl⟩
    rcases Nat.lt_or_ge i (x :: xs).length with h | h
    · rw [List.getD_eq_getElem _ _ h]
      exact List.getElem_mem h
    · rw [List.getD_eq_default _ _ h]
      exact List.Mem.head _

/-- C8, witness: the retrieval URL evaluated on a concrete one-entry
cache. -/
theorem get_order_url_spec_witness :
    ([JsonVal.s "ord-9"] : List JsonVal) ≠ [] ∧
    ∃ v ∈ ([JsonVal.s "ord-9"] : List JsonVal),
      (get_order [JsonVal.s "ord-9"] 0).1 = "/order/" ++ pyStr v :=
  ⟨by simp, (get_order_url_spec [JsonVal.s "ord-9"] 0).2.2.2 (by simp)⟩

/-- C9: `StepLoadShape.tick` and `SpikeLoadShape.tick` return the
`(users, spawn_rate)` pair of the first stage of their table whose
duration strictly exceeds the run time `t`, and return none (stopping the
test) for every `t` at or past the last stage's duration (300 s for the
step shape, 150 s for the spike shape). -/
theorem tick_first_matching_stage (t : ℚ) :
    step_tick t = (step_stages.find? fun s => decide (t < s.duration)).map
        (fun s => (s.users, s.spawn_rate)) ∧
    (300 ≤ t → step_tick t = none) ∧
    spike_tick t = (spike_stages.find? fun s => decide (t < s.duration)).map
        (fun s => (s.users, s.spawn_rate)) ∧
    (150 ≤ t → spike_tick t = none) := by
  refine ⟨tickLoop_eq_find _ _, fun h => ?_, tickLoop_eq_find _ _, fun h => ?_⟩
  · rw [step_tick_eval]
    have hb : ∀ c : ℚ, c ≤ 300 → ¬ t < c := fun c hc habs => by linarith
    rw [if_neg (hb 60 (by norm_num)), if_neg (hb 120 (by norm_num)),
      if_neg (hb 180 (by norm_num)), if_neg (hb 240 (by norm_num)),
      if_neg (hb 300 (by norm_num))]
  · rw [spike_tick_eval]
    have hb : ∀ c : ℚ, c ≤ 150 → ¬ t < c := fun c hc habs => by linarith
    rw [if_neg (hb 30 (by norm_num)), if_neg (hb 60 (by norm_num)),
      if_neg (hb 90 (by norm_num)), if_neg (hb 120 (by norm_num)),
      if_neg (hb 150 (by norm_num))]

/-- C9, witness: both shapes evaluated past their last stage. -/
theorem tick_first_matching_stage_witness :
    (300 : ℚ) ≤ 450 ∧ step_tick 450 = none ∧
    (150 : ℚ) ≤ 450 ∧ spike_tick 450 = none :=
  ⟨by norm_num, (tick_first_matching_stage 450).2.1 (by norm_num),
   by norm_num, (tick_first_matching_stage 450).2.2.2 (by norm_num)⟩

/-- C10: the user count `StepLoadShape.tick` commands is monotone
non-decreasing over run times below 300 s (stepping through
10, 25, 50, 75, 100). -/
theorem step_load_users_monotone (t1 t2 : ℚ) (h12 : t1 ≤ t2) (h2 : t2 < 300) :
    ∃ p1 p2 : Nat × Nat,
      step_tick t1 = some p1 ∧ step_tick t2 = some p2 ∧ p1.1 ≤ p2.1 := by
  obtain ⟨s1, e1⟩ := step_tick_users t1 (lt_of_le_of_lt h12 h2)
  obtain ⟨s2, e2⟩ := step_tick_users t2 h2
  exact ⟨_, _, e1, e2, step_users_mono t1 t2 h12⟩

/-- C10, witness: monotonicity evaluated at the concrete pair of run
times 70 s and 200 s. -/
theorem step_load_users_monotone_witness :
    (70 : ℚ) ≤ 200 ∧ (200 : ℚ) < 300 ∧
    ∃ p1 p2 : Nat × Nat,
      step_tick 70 = some p1 ∧ step_tick 200 = some p2 ∧ p1.1 ≤ p2.1 :=
  ⟨by norm_num, by norm_num, step_load_users_monotone 70 200 (by norm_num) (by norm_num)⟩
